import Mathlib

/-!
Verification of the cvlib/cvpack collective-variable glue code.

The repository consists of two Python modules:

* `cvlib/cvlib.py` — an `AbstractCollectiveVariable` mixin over the host
  engine's `Force` class, with a unit tag (`setUnit`/`getUnit`), the
  force-group isolation helper `evaluateInContext`, and the concrete
  `RadiusOfGyration` collective variable built on the engine's
  `CustomCentroidBondForce`.
* `cvpack/openmm_force_wrapper.py` — `OpenMMForceWrapper`, which
  serializes an arbitrary pre-built engine force to XML text, deserializes
  a detached copy, merges the copy's instance dictionary into the new
  wrapper object, and appends the copy's class to the wrapper class's
  base-class tuple.

The host engine (OpenMM) is modelled opaquely: quantities carry an
abstract unit tag with a linear conversion factor to the engine's MD unit
system, a context carries an abstract per-force-group potential-energy
query, and the engine's XML round trip is modelled as a faithful
encode/decode pair.  Python-level imperative effects (instance-attribute
updates, class-object mutation) are made explicit by threading the
affected state through the embedded functions.
-/

/-! ## Units and quantities (model of `openmm.unit`) -/

/-- A unit of measurement of the host engine's unit module, modelled as a
name together with the linear factor converting a value in this unit to
the corresponding value in the engine's MD unit system (mass in Da,
distance in nm, time in ps, energy in kJ/mol, angle in rad). -/
structure MMUnit where
  uname : String
  mdFactor : Rat
deriving DecidableEq, Repr

/-- The engine's dimensionless unit. -/
def dimensionless : MMUnit := ⟨"dimensionless", 1⟩

/-- The engine's nanometer unit: the MD unit of distance. -/
def nanometers : MMUnit := ⟨"nanometer", 1⟩

/-- The engine's kilojoule-per-mole unit: the MD unit of energy. -/
def kilojoules_per_mole : MMUnit := ⟨"kilojoule/mole", 1⟩

/-- A quantity of the host engine's unit module: a numerical value paired
with a unit of measurement.  Multiplying a number by a unit, as in the
source's `value * self.getUnit()`, yields such a pair. -/
structure Quantity where
  value : Rat
  qunit : MMUnit
deriving DecidableEq, Repr

/-- Model of `Quantity.value_in_unit_system(unit.md_unit_system)`: the
numerical value of the quantity converted to the MD unit system. -/
def value_in_md_unit_system (q : Quantity) : Rat :=
  q.value * q.qunit.mdFactor

/-- Embedding of `cvlib._in_md_units` (cvlib.py lines 16-23): the
numerical value of a quantity in a unit of measurement compatible with
the MD unit system. -/
def _in_md_units (quantity : Quantity) : Rat :=
  value_in_md_unit_system quantity

/-! ## `AbstractCollectiveVariable` (cvlib.py lines 26-74) -/

/-- The instance state of an `AbstractCollectiveVariable`: as a subclass
of the engine's `openmm.Force` it carries a force-group index, and the
class adds the unit tag `_unit` (class default `dimensionless`). -/
structure AbstractCollectiveVariable where
  forceGroup : Nat
  _unit : MMUnit
deriving DecidableEq, Repr

/-- Embedding of `AbstractCollectiveVariable.setUnit` (cvlib.py lines
34-44): sets the unit of measurement of this collective variable. -/
def setUnit (self : AbstractCollectiveVariable) (cv_unit : MMUnit) :
    AbstractCollectiveVariable :=
  { self with _unit := cv_unit }

/-- Embedding of `AbstractCollectiveVariable.getUnit` (cvlib.py lines
46-51): gets the unit of measurement of this collective variable. -/
def getUnit (self : AbstractCollectiveVariable) : MMUnit :=
  self._unit

/-- Model of the engine's `Force.setForceGroup`. -/
def setForceGroup (self : AbstractCollectiveVariable) (group : Nat) :
    AbstractCollectiveVariable :=
  { self with forceGroup := group }

/-- Model of the engine's `Force.getForceGroup`. -/
def getForceGroup (self : AbstractCollectiveVariable) : Nat :=
  self.forceGroup

/-- Model of the host engine's `openmm.Context`, restricted to what
`evaluateInContext` uses: the force groups of the forces of the context's
system other than the collective variable itself, whether the collective
variable has been added to that system (in which case
`context.getSystem().getForces()` also reports the variable's own,
aliased, force group), and the engine's energy query
`context.getState(getEnergy=True, groups=...)` for a single group,
modelled as an opaque function from the group index to the potential
energy the engine reports for the forces assigned to that group. -/
structure Context where
  otherForceGroups : List Nat
  cvInSystem : Bool
  groupEnergy : Nat → Quantity

/-- The force groups reported by `context.getSystem().getForces()`:
the groups of the system's other forces, plus the collective variable's
own current group when it is part of the system. -/
def Context.forceGroupsSeen (context : Context)
    (cv : AbstractCollectiveVariable) : List Nat :=
  context.otherForceGroups ++ (if context.cvInSystem then [cv.forceGroup] else [])

/-- Embedding of `set(range(32)) - set(f.getForceGroup() for f in forces)`
(cvlib.py line 68), enumerated in ascending order.  CPython's iteration
order over a set of small integers is implementation-defined; the
development determinizes `next(iter(free_groups))` as the head of this
ascending enumeration, and the theorems below rely only on membership in
the set. -/
def freeGroups (forces : List Nat) : List Nat :=
  (List.range 32).filter (fun g => ¬ g ∈ forces)

/-- The source of a Python exception observed by the caller: raised by
the host engine (OpenMM), or raised by the Python runtime itself while
executing this repository's code. -/
inductive ErrorSource where
  | hostEngine
  | pythonRuntime
deriving DecidableEq, Repr

/-- A raised Python exception: its source and its class name. -/
structure RaisedError where
  source : ErrorSource
  ename : String
deriving DecidableEq, Repr

/-- The temporary force group selected by `evaluateInContext` (cvlib.py
lines 67-70): `new_group = next(iter(free_groups))`, or `none` when the
set of free groups is empty (in which case `next` raises
`StopIteration`). -/
def selectedGroup (self : AbstractCollectiveVariable) (context : Context) :
    Option Nat :=
  (freeGroups (context.forceGroupsSeen self)).head?

/-- Embedding of `AbstractCollectiveVariable.evaluateInContext` (cvlib.py
lines 53-74).  The imperative force-group swap is made explicit: the
function returns, besides the resulting quantity, the post-state of the
collective variable.  When every one of the 32 force groups is occupied,
`next(iter(free_groups))` on line 70 raises `StopIteration` — a Python
builtin exception raised inside this function, before any engine call. -/
def evaluateInContext (self : AbstractCollectiveVariable)
    (context : Context) :
    Except RaisedError (Quantity × AbstractCollectiveVariable) :=
  let forces := context.forceGroupsSeen self
  let free_groups := freeGroups forces
  let old_group := getForceGroup self
  match free_groups with
  | [] => .error ⟨.pythonRuntime, "StopIteration"⟩
  | new_group :: _ =>
    let self1 := setForceGroup self new_group
    let stateEnergy := context.groupEnergy new_group
    let self2 := setForceGroup self1 old_group
    .ok (⟨_in_md_units stateEnergy, getUnit self2⟩, self2)

/-! ## `RadiusOfGyration` (cvlib.py lines 77-131) -/

/-- The state of a `RadiusOfGyration` object.  The class inherits from
the engine's `CustomCentroidBondForce` (an expression string over
centroid groups, a list of centroid groups given as atom indices with
weights, a list of bonds given as group indices with per-bond parameters,
and a periodic-boundary-conditions flag) and from
`AbstractCollectiveVariable` (force group and unit tag). -/
structure RadiusOfGyration where
  numGroups : Nat
  energyFunction : String
  groups : List (List Nat × List Rat)
  bonds : List (List Nat × List Rat)
  usesPeriodicBoundaryConditions : Bool
  forceGroup : Nat
  _unit : MMUnit
deriving DecidableEq, Repr

/-- The `AbstractCollectiveVariable` part of a `RadiusOfGyration`
(inheritance projection). -/
def RadiusOfGyration.toCV (rg : RadiusOfGyration) :
    AbstractCollectiveVariable :=
  ⟨rg.forceGroup, rg._unit⟩

/-- Embedding of `RadiusOfGyration.__init__` (cvlib.py lines 119-131):
one singleton centroid group per atom with weight 1, one final group
holding all the atoms, a single bond over all the groups, the energy
expression `sqrt((sum of squared distances)/num_atoms)` built by joining
`distance(gi, g_num_groups)^2` terms with `+`, periodic boundary
conditions disabled, and the unit set to nanometers.  A fresh engine
force starts in force group 0. -/
def RadiusOfGyration.init (atoms : List Nat) : RadiusOfGyration :=
  let num_atoms := atoms.length
  let num_groups := num_atoms + 1
  let rgsq := String.intercalate "+"
    ((List.range num_atoms).map (fun i =>
      "distance(g" ++ toString (i + 1) ++ ", g" ++ toString num_groups
        ++ ")^2"))
  { numGroups := num_groups
    energyFunction := "sqrt((" ++ rgsq ++ ")/" ++ toString num_atoms ++ ")"
    groups := atoms.map (fun atom => ([atom], [(1 : Rat)])) ++
      [(atoms, List.replicate num_atoms (1 : Rat))]
    bonds := [(List.range num_groups, ([] : List Rat))]
    usesPeriodicBoundaryConditions := false
    forceGroup := 0
    _unit := nanometers }

/-! ## `OpenMMForceWrapper` (cvpack/openmm_force_wrapper.py) -/

/-- A host-engine force object as `OpenMMForceWrapper` manipulates it:
its Python class and its instance dictionary (`__dict__`), the latter
modelled as an association list from attribute names to opaque attribute
values. -/
structure OMMForce where
  className : String
  instanceDict : List (String × String)
deriving DecidableEq, Repr

/-- The portable XML text produced by the engine's `XmlSerializer`,
modelled abstractly as the force it encodes. -/
structure XmlText where
  content : OMMForce
deriving DecidableEq, Repr

/-- Model of the engine's `openmm.XmlSerializer.serialize`: encodes the
force as XML text.  The engine's serializer is a read-only query, so the
model also returns the force object as it stands after the call,
unchanged. -/
def serializeForce (force : OMMForce) : XmlText × OMMForce :=
  (⟨force⟩, force)

/-- Model of the engine's `openmm.XmlSerializer.deserialize`: decodes the
XML text into a fresh, detached force object. -/
def deserializeForce (text : XmlText) : OMMForce :=
  text.content

/-- Python's `dict.update`: keys already present keep their position and
receive the new value; keys only in the update are appended in order. -/
def dictUpdate (d e : List (String × String)) : List (String × String) :=
  d.map (fun kv => ((e.find? (fun kv2 => kv2.1 == kv.1)).getD kv)) ++
    e.filter (fun kv => ! d.any (fun kv2 => kv2.1 == kv.1))

/-- Modelled from the spec: `cvpack.unit.SerializableUnit` is not under
src/; it wraps an engine unit in a serializable form, preserving the
measurement it denotes. -/
def SerializableUnit (u : MMUnit) : MMUnit := u

/-- The mutable base-class tuple of the `OpenMMForceWrapper` class
object (`OpenMMForceWrapper.__class__.__bases__`), listed by class
name.  This is state of the class itself, shared by all instances. -/
structure WrapperClassBases where
  bases : List String
deriving DecidableEq, Repr

/-- The wrapper class's base-class tuple before any construction:
`OpenMMForceWrapper(BaseCollectiveVariable)`. -/
def initialWrapperBases : WrapperClassBases := ⟨["BaseCollectiveVariable"]⟩

/-- The instance state of an `OpenMMForceWrapper`: the instance
dictionary merged from the deserialized copy, and the collective-variable
metadata registered on it. -/
structure OpenMMForceWrapper where
  instanceDict : List (String × String)
  cvUnit : MMUnit
  registeredArgs : Option (XmlText × MMUnit × Option Rat)
  registeredPeriod : Option Rat
deriving DecidableEq, Repr

/-- Modelled from the spec: `BaseCollectiveVariable._registerCV` is not
under src/; per the spec, it registers the collective variable's
metadata — its unit-of-measurement tag and the constructor arguments
(the serialized force, the unit, and the optional period). -/
def _registerCV (self : OpenMMForceWrapper) (cvUnit : MMUnit)
    (argForce : XmlText) (argUnit : MMUnit) (argPeriod : Option Rat) :
    OpenMMForceWrapper :=
  { self with
      cvUnit := cvUnit
      registeredArgs := some (argForce, argUnit, argPeriod) }

/-- Modelled from the spec: `BaseCollectiveVariable._registerPeriod` is
not under src/; per the spec, it registers the optional periodicity value
of the collective variable. -/
def _registerPeriod (self : OpenMMForceWrapper) (period : Rat) :
    OpenMMForceWrapper :=
  { self with registeredPeriod := some period }

/-- The full effect of running `OpenMMForceWrapper.__init__`: the new
instance, the wrapper class's base-class tuple after the call, and the
state of the constructor's argument object after the call. -/
structure InitResult where
  self : OpenMMForceWrapper
  classBases : WrapperClassBases
  inputAfter : OMMForce ⊕ XmlText
deriving DecidableEq, Repr

/-- Embedding of `OpenMMForceWrapper.__init__`
(openmm_force_wrapper.py lines 78-92).  The argument is either a
pre-built engine force or already-serialized XML text; the class-object
state is threaded explicitly because line 89 mutates it. -/
def OpenMMForceWrapper.init (openmmForce : OMMForce ⊕ XmlText)
    (u : MMUnit) (period : Option Rat)
    (classBases : WrapperClassBases) : InitResult :=
  -- lines 84-85: rebind the local name to the serialized XML text when a
  -- force object was passed; serialization only reads the argument
  let serialized : XmlText :=
    match openmmForce with
    | .inl force => (serializeForce force).1
    | .inr text => text
  let inputAfter : OMMForce ⊕ XmlText :=
    match openmmForce with
    | .inl force => .inl (serializeForce force).2
    | .inr text => .inr text
  -- line 86: unit = SerializableUnit(unit)
  let u1 := SerializableUnit u
  -- line 87: a detached copy of the force
  let force_copy := deserializeForce serialized
  -- line 88: self.__dict__.update(force_copy.__dict__); the superclass
  -- __init__ is deliberately not called, so self's dict starts empty and
  -- the unit tag still has the class default
  let self0 : OpenMMForceWrapper :=
    { instanceDict := dictUpdate [] force_copy.instanceDict
      cvUnit := dimensionless
      registeredArgs := none
      registeredPeriod := none }
  -- line 89: self.__class__.__bases__ += (force_copy.__class__,)
  let classBases1 : WrapperClassBases :=
    ⟨classBases.bases ++ [force_copy.className]⟩
  -- line 90: self._registerCV(unit, openmmForce, unit, period)
  let self1 := _registerCV self0 u1 serialized u1 period
  -- lines 91-92: if period is not None: self._registerPeriod(period)
  let self2 :=
    match period with
    | some p => _registerPeriod self1 p
    | none => self1
  ⟨self2, classBases1, inputAfter⟩

/-- Python's `isinstance`, restricted to what the wrapper manipulates: an
`OpenMMForceWrapper` instance is an instance of its own class and of
every class in the (shared, mutable) base-class tuple. -/
def isinstanceOf (classBases : WrapperClassBases) (cls : String) : Prop :=
  cls = "OpenMMForceWrapper" ∨ cls ∈ classBases.bases

/-! ## Theorems for the `cvlib` claims -/

/-- C7: for every collective variable and every unit of measurement `u`,
calling `setUnit u` and then `getUnit` returns exactly `u`: the unit
accessors form a set/get round trip on the variable's unit tag. -/
theorem setUnit_getUnit_roundtrip (cv : AbstractCollectiveVariable)
    (u : MMUnit) : getUnit (setUnit cv u) = u :=
  rfl

/-- C2: whenever a call to `evaluateInContext` completes, the returned
post-state of the collective variable is exactly its pre-state: the force
group equals the group it had before the call (the swap is transient) and
no other field of the variable is altered; consequently the force groups
the system reports are also unchanged. -/
theorem evaluateInContext_restores_state (cv : AbstractCollectiveVariable)
    (ctx : Context) (q : Quantity) (cv' : AbstractCollectiveVariable)
    (h : evaluateInContext cv ctx = .ok (q, cv')) :
    cv' = cv ∧ ctx.forceGroupsSeen cv' = ctx.forceGroupsSeen cv := by
  unfold evaluateInContext at h
  rcases hfree : freeGroups (ctx.forceGroupsSeen cv) with _ | ⟨g, rest⟩ <;>
    simp only [hfree] at h
  · exact absurd h (by simp)
  · simp only [Except.ok.injEq, Prod.mk.injEq] at h
    have hcv : cv' = cv := by
      rcases h with ⟨_, h2⟩
      rw [← h2]
      rfl
    exact ⟨hcv, by rw [hcv]⟩

/-- Witness for C2 at a concrete input: a variable in group 0 with a
single other force in group 0, evaluated in a context with a constant
energy query, is returned unchanged. -/
theorem evaluateInContext_restores_state_witness :
    (⟨0, nanometers⟩ : AbstractCollectiveVariable) =
      (⟨0, nanometers⟩ : AbstractCollectiveVariable) ∧
    Context.forceGroupsSeen ⟨[0], true, fun _ => ⟨7, kilojoules_per_mole⟩⟩
        ⟨0, nanometers⟩ =
      Context.forceGroupsSeen ⟨[0], true, fun _ => ⟨7, kilojoules_per_mole⟩⟩
        ⟨0, nanometers⟩ :=
  evaluateInContext_restores_state ⟨0, nanometers⟩
    ⟨[0], true, fun _ => ⟨7, kilojoules_per_mole⟩⟩
    ⟨_in_md_units ⟨7, kilojoules_per_mole⟩, nanometers⟩ ⟨0, nanometers⟩ rfl

/-- Shared helper: when at least one force group is free, the call
selects a free group `g` below 32 and returns the engine's energy for
that group in MD units, tagged with the variable's unit, restoring the
variable's state. -/
theorem evaluateInContext_ok_of_free (cv : AbstractCollectiveVariable)
    (ctx : Context) (h : freeGroups (ctx.forceGroupsSeen cv) ≠ []) :
    ∃ g, selectedGroup cv ctx = some g ∧
      g ∉ ctx.forceGroupsSeen cv ∧ g < 32 ∧
      evaluateInContext cv ctx =
        .ok (⟨_in_md_units (ctx.groupEnergy g), getUnit cv⟩, cv) := by
  rcases hfree : freeGroups (ctx.forceGroupsSeen cv) with _ | ⟨g, rest⟩
  · exact absurd hfree h
  · have hg : g ∈ freeGroups (ctx.forceGroupsSeen cv) := by
      rw [hfree]; exact List.mem_cons_self g rest
    rw [freeGroups, List.mem_filter] at hg
    refine ⟨g, ?_, ?_, ?_, ?_⟩
    · rw [selectedGroup, hfree]; rfl
    · simpa using hg.2
    · simpa using List.mem_range.mp hg.1
    · rw [evaluateInContext]
      simp only [hfree, setForceGroup, getForceGroup, getUnit]

/-- C1: for every collective variable and every context whose system
leaves at least one of the 32 force-group slots unused, the call
reassigns the variable to a group `g` occupied by no force of the system,
queries the engine's potential energy restricted to that single group,
and returns that energy converted to MD units, multiplied by the
variable's unit of measurement (with the variable restored). -/
theorem evaluateInContext_isolated_energy (cv : AbstractCollectiveVariable)
    (ctx : Context) (h : freeGroups (ctx.forceGroupsSeen cv) ≠ []) :
    ∃ g, selectedGroup cv ctx = some g ∧
      g ∉ ctx.forceGroupsSeen cv ∧ g < 32 ∧
      evaluateInContext cv ctx =
        .ok (⟨_in_md_units (ctx.groupEnergy g), getUnit cv⟩, cv) :=
  evaluateInContext_ok_of_free cv ctx h

/-- Witness for C1 at a concrete input: a variable in group 0 inside a
system whose only other force also sits in group 0; the free slot chosen
is group 1 and the result is that group's energy in the variable's
unit. -/
theorem evaluateInContext_isolated_energy_witness :
    freeGroups (Context.forceGroupsSeen
        ⟨[0], true, fun _ => ⟨21, kilojoules_per_mole⟩⟩ ⟨0, nanometers⟩) ≠ [] ∧
    ∃ g, selectedGroup ⟨0, nanometers⟩
        ⟨[0], true, fun _ => ⟨21, kilojoules_per_mole⟩⟩ = some g ∧
      g ∉ Context.forceGroupsSeen
        ⟨[0], true, fun _ => ⟨21, kilojoules_per_mole⟩⟩ ⟨0, nanometers⟩ ∧
      g < 32 ∧
      evaluateInContext ⟨0, nanometers⟩
          ⟨[0], true, fun _ => ⟨21, kilojoules_per_mole⟩⟩ =
        .ok (⟨_in_md_units ⟨21, kilojoules_per_mole⟩, nanometers⟩,
             ⟨0, nanometers⟩) :=
  ⟨by decide,
   evaluateInContext_isolated_energy ⟨0, nanometers⟩
     ⟨[0], true, fun _ => ⟨21, kilojoules_per_mole⟩⟩ (by decide)⟩

/-- C6: whenever `evaluateInContext` selects a temporary force group `g`,
that group index lies in the fixed range 0 to 31 inclusive, and the call
queries the engine's energy at that very group. -/
theorem selected_group_bounded (cv : AbstractCollectiveVariable)
    (ctx : Context) (g : Nat) (h : selectedGroup cv ctx = some g) :
    g ≤ 31 ∧
    evaluateInContext cv ctx =
      .ok (⟨_in_md_units (ctx.groupEnergy g), getUnit cv⟩, cv) := by
  have hne : freeGroups (ctx.forceGroupsSeen cv) ≠ [] := by
    intro hnil
    rw [selectedGroup, hnil] at h
    exact absurd h (by simp)
  obtain ⟨g', hsel, _, hlt, heval⟩ := evaluateInContext_ok_of_free cv ctx hne
  have hgg : g' = g := by rw [hsel] at h; exact Option.some.inj h
  subst hgg
  exact ⟨Nat.lt_succ_iff.mp hlt, heval⟩

/-- Witness for C6 at a concrete input: with the only occupied group
being 0, the selected group is 1, which is at most 31. -/
theorem selected_group_bounded_witness :
    1 ≤ 31 ∧
    evaluateInContext ⟨0, dimensionless⟩
        ⟨[0], false, fun _ => ⟨3, kilojoules_per_mole⟩⟩ =
      .ok (⟨_in_md_units ⟨3, kilojoules_per_mole⟩, dimensionless⟩,
           ⟨0, dimensionless⟩) :=
  selected_group_bounded ⟨0, dimensionless⟩
    ⟨[0], false, fun _ => ⟨3, kilojoules_per_mole⟩⟩ 1 (by decide)

/-- C5 counterexample: in a context whose system occupies all 32
force-group slots, `evaluateInContext` fails with `StopIteration`, an
exception raised by the Python runtime inside this repository's own
function (at `next(iter(free_groups))`), before any engine query; so it
is not the case that every failure of this call comes from the host
engine. -/
theorem exhaustion_error_not_from_engine :
    evaluateInContext ⟨0, dimensionless⟩
        ⟨List.range 32, true, fun _ => ⟨0, kilojoules_per_mole⟩⟩ =
      .error ⟨.pythonRuntime, "StopIteration"⟩ ∧
    ¬ (∀ e, evaluateInContext ⟨0, dimensionless⟩
          ⟨List.range 32, true, fun _ => ⟨0, kilojoules_per_mole⟩⟩ =
        .error e → e.source = .hostEngine) := by
  have h : evaluateInContext ⟨0, dimensionless⟩
      ⟨List.range 32, true, fun _ => ⟨0, kilojoules_per_mole⟩⟩ =
      .error ⟨.pythonRuntime, "StopIteration"⟩ := by rfl
  refine ⟨h, fun hall => ?_⟩
  have := hall ⟨.pythonRuntime, "StopIteration"⟩ h
  simp at this

/-- C5, amended: on force-group exhaustion the failure is a
`StopIteration` raised by the Python runtime inside `evaluateInContext`
itself; the repository defines no exception class of its own, and the
host engine is never consulted. -/
theorem exhaustion_raises_python_error (cv : AbstractCollectiveVariable)
    (ctx : Context) (h : freeGroups (ctx.forceGroupsSeen cv) = []) :
    evaluateInContext cv ctx = .error ⟨.pythonRuntime, "StopIteration"⟩ ∧
    ErrorSource.pythonRuntime ≠ ErrorSource.hostEngine := by
  constructor
  · rw [evaluateInContext]
    simp only [h]
  · simp

/-- Witness for the amended C5 at a concrete input: a system with forces
occupying groups 0 through 31. -/
theorem exhaustion_raises_python_error_witness :
    evaluateInContext ⟨5, nanometers⟩
        ⟨List.range 32, false, fun _ => ⟨0, kilojoules_per_mole⟩⟩ =
      .error ⟨.pythonRuntime, "StopIteration"⟩ ∧
    ErrorSource.pythonRuntime ≠ ErrorSource.hostEngine :=
  exhaustion_raises_python_error ⟨5, nanometers⟩
    ⟨List.range 32, false, fun _ => ⟨0, kilojoules_per_mole⟩⟩ (by decide)

/-- C9: for a non-empty list of `n` atom indices, the `RadiusOfGyration`
constructor builds a centroid-bond force with exactly `n + 1` groups —
the first `n` each holding one atom with weight 1 and the last holding
all `n` atoms — adds a single bond over all `n + 1` groups, sets the
energy expression to the square root of the mean of the `n` squared
distances from each atom's group to the all-atom centroid group,
disables periodic boundary conditions, and sets the unit to
nanometers. -/
theorem radius_of_gyration_construction (atoms : List Nat)
    (_h : atoms ≠ []) :
    (RadiusOfGyration.init atoms).numGroups = atoms.length + 1 ∧
    (RadiusOfGyration.init atoms).groups.length = atoms.length + 1 ∧
    (RadiusOfGyration.init atoms).groups.take atoms.length =
      atoms.map (fun atom => ([atom], [(1 : Rat)])) ∧
    (RadiusOfGyration.init atoms).groups.drop atoms.length =
      [(atoms, List.replicate atoms.length (1 : Rat))] ∧
    (RadiusOfGyration.init atoms).bonds =
      [(List.range (atoms.length + 1), ([] : List Rat))] ∧
    (RadiusOfGyration.init atoms).energyFunction =
      "sqrt((" ++ String.intercalate "+"
        ((List.range atoms.length).map (fun i =>
          "distance(g" ++ toString (i + 1) ++ ", g"
            ++ toString (atoms.length + 1) ++ ")^2")) ++
        ")/" ++ toString atoms.length ++ ")" ∧
    (RadiusOfGyration.init atoms).usesPeriodicBoundaryConditions = false ∧
    getUnit (RadiusOfGyration.init atoms).toCV = nanometers := by
  refine ⟨rfl, ?_, ?_, ?_, rfl, rfl, rfl, rfl⟩
  · simp [RadiusOfGyration.init]
  · rw [RadiusOfGyration.init]
    exact List.take_left' (List.length_map atoms _)
  · rw [RadiusOfGyration.init]
    exact List.drop_left' (List.length_map atoms _)

/-- Witness for C9 at a concrete input: the three-atom group
`[0, 2, 5]`. -/
theorem radius_of_gyration_construction_witness :
    (RadiusOfGyration.init [0, 2, 5]).numGroups = [0, 2, 5].length + 1 ∧
    (RadiusOfGyration.init [0, 2, 5]).groups.length = [0, 2, 5].length + 1 ∧
    (RadiusOfGyration.init [0, 2, 5]).groups.take [0, 2, 5].length =
      [0, 2, 5].map (fun atom => ([atom], [(1 : Rat)])) ∧
    (RadiusOfGyration.init [0, 2, 5]).groups.drop [0, 2, 5].length =
      [([0, 2, 5], List.replicate [0, 2, 5].length (1 : Rat))] ∧
    (RadiusOfGyration.init [0, 2, 5]).bonds =
      [(List.range ([0, 2, 5].length + 1), ([] : List Rat))] ∧
    (RadiusOfGyration.init [0, 2, 5]).energyFunction =
      "sqrt((" ++ String.intercalate "+"
        ((List.range [0, 2, 5].length).map (fun i =>
          "distance(g" ++ toString (i + 1) ++ ", g"
            ++ toString ([0, 2, 5].length + 1) ++ ")^2")) ++
        ")/" ++ toString [0, 2, 5].length ++ ")" ∧
    (RadiusOfGyration.init [0, 2, 5]).usesPeriodicBoundaryConditions
      = false ∧
    getUnit (RadiusOfGyration.init [0, 2, 5]).toCV = nanometers :=
  radius_of_gyration_construction [0, 2, 5] (by decide)

/-! ## Theorems for the `cvpack` claims -/

/-- C3: for every pre-built force passed to the `OpenMMForceWrapper`
constructor, the constructed wrapper is an instance of the wrapped
force's class (the class's effective type has been extended with it),
having been built by serializing the input to text, deserializing a
detached copy — the round trip reproduces the force — and merging that
copy's instance dictionary into the new object. -/
theorem wrapper_instance_of_wrapped_class (force : OMMForce) (u : MMUnit)
    (period : Option Rat) (cb : WrapperClassBases) :
    isinstanceOf (OpenMMForceWrapper.init (.inl force) u period cb).classBases
      force.className ∧
    deserializeForce (serializeForce force).1 = force ∧
    (OpenMMForceWrapper.init (.inl force) u period cb).self.instanceDict =
      force.instanceDict := by
  refine ⟨Or.inr ?_, rfl, ?_⟩
  · rcases period <;>
      simp [OpenMMForceWrapper.init, serializeForce, deserializeForce]
  · rcases period <;>
      simp [OpenMMForceWrapper.init, serializeForce, deserializeForce,
        dictUpdate, _registerCV, _registerPeriod]

/-- C4: the construction of an `OpenMMForceWrapper` leaves the input
force object itself unchanged: only the argument's serialized text is
consumed, and every mutation performed by `__init__` targets the new
instance's dictionary or the wrapper class's base tuple. -/
theorem wrapper_input_unchanged (input : OMMForce ⊕ XmlText) (u : MMUnit)
    (period : Option Rat) (cb : WrapperClassBases) :
    (OpenMMForceWrapper.init input u period cb).inputAfter = input := by
  rcases input <;> rcases period <;>
    simp [OpenMMForceWrapper.init, serializeForce]

/-- C8: the wrapper registers a period for the collective variable if and
only if the `period` argument is not `None`; when it is `None`,
`_registerPeriod` is never called and no period is registered. -/
theorem wrapper_period_registered_iff (input : OMMForce ⊕ XmlText)
    (u : MMUnit) (period : Option Rat) (cb : WrapperClassBases) :
    (OpenMMForceWrapper.init input u period cb).self.registeredPeriod =
      period ∧
    ((OpenMMForceWrapper.init input u period cb).self.registeredPeriod
        ≠ none ↔ period ≠ none) := by
  have h : (OpenMMForceWrapper.init input u period cb).self.registeredPeriod
      = period := by
    rcases period <;>
      simp [OpenMMForceWrapper.init, _registerCV, _registerPeriod]
  exact ⟨h, by rw [h]⟩

/-- C10: constructing an `OpenMMForceWrapper` mutates the class object
itself: the wrapped force's class is appended to the class's base tuple,
so the bases accumulated by one construction are shared by every other
instance, past and future — after a second construction, an instance
check against the shared class state finds both wrapped classes. -/
theorem wrapper_class_bases_accumulate (f1 f2 : OMMForce) (u1 u2 : MMUnit)
    (p1 p2 : Option Rat) (cb : WrapperClassBases) :
    (OpenMMForceWrapper.init (.inl f1) u1 p1 cb).classBases.bases =
      cb.bases ++ [f1.className] ∧
    (OpenMMForceWrapper.init (.inl f2) u2 p2
        (OpenMMForceWrapper.init (.inl f1) u1 p1 cb).classBases).classBases.bases =
      cb.bases ++ [f1.className, f2.className] ∧
    isinstanceOf (OpenMMForceWrapper.init (.inl f2) u2 p2
        (OpenMMForceWrapper.init (.inl f1) u1 p1 cb).classBases).classBases
      f1.className ∧
    isinstanceOf (OpenMMForceWrapper.init (.inl f2) u2 p2
        (OpenMMForceWrapper.init (.inl f1) u1 p1 cb).classBases).classBases
      f2.className := by
  refine ⟨?_, ?_, Or.inr ?_, Or.inr ?_⟩ <;>
    rcases p1 <;> rcases p2 <;>
      simp [OpenMMForceWrapper.init, serializeForce, deserializeForce]
